import Mathlib

/-!
Shallow embedding of `auto_ec2_alarms.py` (repository AWS-Alarms).

The Python module discovers EC2 instances, derives per-instance CloudWatch
alarm definitions (`process_instance`), and submits them in batches of 10
(`create_ec2_alarms` / `create_cloudwatch_alarm_batch` / `tag_alarm`).
External AWS calls are modelled by an explicit environment (`Env`) holding
the responses the network would return, and each run produces a trace of
the API calls it performs together with its outcome.
-/

namespace AutoEc2Alarms

/-- A boto3 dimension dict: a (Name, Value) pair. -/
structure Dim where
  name : String
  value : String
deriving DecidableEq

/-- An EC2 instance tag dict: a (Key, Value) pair. -/
structure Tag where
  key : String
  value : String
deriving DecidableEq

/-- An EC2 instance description as read by `process_instance` (lines 86-93).
Fields the Python reads with `dict.get` and a default are `Option`s. -/
structure Instance where
  instanceId : String
  instanceType : String
  tags : List Tag
  imageId : Option String
  platform : Option String
deriving DecidableEq

/-- One entry of a `list_metrics` response: metric name and dimensions. -/
structure Metric where
  metricName : String
  dimensions : List Dim
deriving DecidableEq

/-- The keyword arguments `process_instance` assembles for
`put_metric_alarm` (the `base_alarm` keys plus the per-alarm keys).
`nameSpace` models the dict key `Namespace`. -/
structure AlarmConfig where
  actionsEnabled : Bool
  alarmActions : List String
  okActions : List String
  statistic : String
  period : Nat
  evaluationPeriods : Nat
  treatMissingData : String
  alarmName : String
  metricName : String
  nameSpace : String
  dimensions : List Dim
  threshold : Nat
  comparisonOperator : String
deriving DecidableEq

/-- ASCII lowering of one string, modelling the Python `str.lower()` call on
line 93. Structurally equal to `String.toLower` (a `Char.toLower` map), but
written over `String.data` so the kernel can evaluate it. -/
def strToLower (s : String) : String := ⟨s.data.map Char.toLower⟩

/-- Model of line 88-89: the value of the tag with key `Name`, defaulting to
`UnnamedInstance`. -/
def instanceNameOf (inst : Instance) : String :=
  ((inst.tags.find? (fun t => t.key == "Name")).map Tag.value).getD "UnnamedInstance"

/-- Model of line 90: the ImageId dict read with default UnknownImage. -/
def imageIdOf (inst : Instance) : String := inst.imageId.getD "UnknownImage"

/-- Model of line 93: the Platform dict read, defaulted to linux, lowercased. -/
def platformOf (inst : Instance) : String := strToLower (inst.platform.getD "linux")

/-- The alarm-name f-string used on lines 109, 120, 144, 157, 170, 186:
`{alarm_prefix}_{account_alias}_ec2_{instance_name}_{suffix}`. -/
def mkAlarmName (alarmPfx accountAlias instanceName sfx : String) : String :=
  alarmPfx ++ "_" ++ accountAlias ++ "_ec2_" ++ instanceName ++ "_" ++ sfx

/-- The `base_alarm` dict of lines 96-104. The per-alarm keys it does not
carry are placeholders here; every emitted alarm overrides all of them. -/
def baseAlarm (snsTopicArn : String) : AlarmConfig :=
  { actionsEnabled := true
    alarmActions := [snsTopicArn]
    okActions := [snsTopicArn]
    statistic := "Average"
    period := 60
    evaluationPeriods := 5
    treatMissingData := "breaching"
    alarmName := ""
    metricName := ""
    nameSpace := ""
    dimensions := []
    threshold := 0
    comparisonOperator := "" }

/-- The status-check alarm of lines 107-115. -/
def statusCheckAlarm (alarmPfx accountAlias snsTopicArn : String) (inst : Instance) : AlarmConfig :=
  { baseAlarm snsTopicArn with
    alarmName := mkAlarmName alarmPfx accountAlias (instanceNameOf inst) "status-check"
    metricName := "StatusCheckFailed"
    nameSpace := "AWS/EC2"
    dimensions := [⟨"InstanceId", inst.instanceId⟩]
    threshold := 1
    comparisonOperator := "GreaterThanOrEqualToThreshold" }

/-- The CPU alarm of lines 118-126. -/
def cpuUsedAlarm (alarmPfx accountAlias snsTopicArn : String) (inst : Instance) : AlarmConfig :=
  { baseAlarm snsTopicArn with
    alarmName := mkAlarmName alarmPfx accountAlias (instanceNameOf inst) "cpu-used"
    metricName := "CPUUtilization"
    nameSpace := "AWS/EC2"
    dimensions := [⟨"InstanceId", inst.instanceId⟩]
    threshold := 95
    comparisonOperator := "GreaterThanOrEqualToThreshold" }

/-- The Linux memory alarm of lines 142-150, reusing the dimensions of the
discovered `mem_used_percent` metric. -/
def linuxMemAlarm (alarmPfx accountAlias snsTopicArn : String) (inst : Instance)
    (dims : List Dim) : AlarmConfig :=
  { baseAlarm snsTopicArn with
    alarmName := mkAlarmName alarmPfx accountAlias (instanceNameOf inst) "mem-used"
    metricName := "mem_used_percent"
    nameSpace := "CWAgent"
    dimensions := dims
    threshold := 95
    comparisonOperator := "GreaterThanOrEqualToThreshold" }

/-- The Linux disk alarm of lines 155-163, reusing the dimensions of the
discovered `disk_used_percent` metric. -/
def linuxDiskAlarm (alarmPfx accountAlias snsTopicArn : String) (inst : Instance)
    (dims : List Dim) : AlarmConfig :=
  { baseAlarm snsTopicArn with
    alarmName := mkAlarmName alarmPfx accountAlias (instanceNameOf inst) "disk-used"
    metricName := "disk_used_percent"
    nameSpace := "CWAgent"
    dimensions := dims
    threshold := 95
    comparisonOperator := "GreaterThanOrEqualToThreshold" }

/-- The Windows memory alarm of lines 168-181. -/
def windowsMemAlarm (alarmPfx accountAlias snsTopicArn : String) (inst : Instance) : AlarmConfig :=
  { baseAlarm snsTopicArn with
    alarmName := mkAlarmName alarmPfx accountAlias (instanceNameOf inst) "mem-used"
    metricName := "Memory % Committed Bytes In Use"
    nameSpace := "CWAgent"
    dimensions := [⟨"InstanceId", inst.instanceId⟩, ⟨"ImageId", imageIdOf inst⟩,
      ⟨"objectname", "Memory"⟩, ⟨"InstanceType", inst.instanceType⟩]
    threshold := 95
    comparisonOperator := "GreaterThanOrEqualToThreshold" }

/-- The Windows disk alarm of lines 184-198: free-space floor, threshold 5,
inverted comparison. -/
def windowsDiskAlarm (alarmPfx accountAlias snsTopicArn : String) (inst : Instance) : AlarmConfig :=
  { baseAlarm snsTopicArn with
    alarmName := mkAlarmName alarmPfx accountAlias (instanceNameOf inst) "disk-used"
    metricName := "LogicalDisk % Free Space"
    nameSpace := "CWAgent"
    dimensions := [⟨"InstanceId", inst.instanceId⟩, ⟨"ImageId", imageIdOf inst⟩,
      ⟨"objectname", "LogicalDisk"⟩, ⟨"InstanceType", inst.instanceType⟩,
      ⟨"instance", "C:"⟩]
    threshold := 5
    comparisonOperator := "LessThanOrEqualToThreshold" }

/-- The Linux metric loop of lines 137-163: one mem-used alarm per
`mem_used_percent` sample and one disk-used alarm per dimension
`path == "/"` of each `disk_used_percent` sample, in catalog order. -/
def linuxExtraAlarms (alarmPfx accountAlias snsTopicArn : String) (inst : Instance) :
    List Metric → List AlarmConfig
  | [] => []
  | m :: rest =>
    (if m.metricName == "mem_used_percent" then
      [linuxMemAlarm alarmPfx accountAlias snsTopicArn inst m.dimensions]
     else []) ++
    (if m.metricName == "disk_used_percent" then
      (m.dimensions.filter (fun d => d.name == "path" && d.value == "/")).map
        (fun _ => linuxDiskAlarm alarmPfx accountAlias snsTopicArn inst m.dimensions)
     else []) ++
    linuxExtraAlarms alarmPfx accountAlias snsTopicArn inst rest

/-- Shallow embedding of `process_instance` (lines 84-200). The Linux-branch
`list_metrics` call is passed in as `metricsResult`: the outcome that call
would return (`Except.error` models the raised exception, which Python does
not catch here, so it propagates out of `process_instance`). -/
def processInstance (alarmPfx accountAlias snsTopicArn : String) (inst : Instance)
    (metricsResult : Except String (List Metric)) : Except String (List AlarmConfig) :=
  let baseline := [statusCheckAlarm alarmPfx accountAlias snsTopicArn inst,
                   cpuUsedAlarm alarmPfx accountAlias snsTopicArn inst]
  if platformOf inst == "linux" then
    match metricsResult with
    | .error e => .error e
    | .ok metricsAvailable =>
      .ok (baseline ++ linuxExtraAlarms alarmPfx accountAlias snsTopicArn inst metricsAvailable)
  else if platformOf inst == "windows" then
    .ok (baseline ++ [windowsMemAlarm alarmPfx accountAlias snsTopicArn inst,
                      windowsDiskAlarm alarmPfx accountAlias snsTopicArn inst])
  else
    .ok baseline

/-- Membership of `needle` in `hay` as a contiguous character run, modelling
the Python substring test of the topic name against each topic ARN (line 47). -/
def listIn (needle : List Char) : List Char → Bool
  | [] => needle.isPrefixOf ([] : List Char)
  | c :: rest => needle.isPrefixOf (c :: rest) || listIn needle rest

/-- String version of `listIn`, the Python `in` operator on strings. -/
def strIn (needle hay : String) : Bool := listIn needle.data hay.data

/-- One AWS API call performed during a run, in the order the run makes
them. Used to state which external calls happen before a failure. -/
inductive ApiCall where
  | listAccountAliases
  | listTopics
  | describeInstances
  | listMetrics (instanceId : String)
  | putMetricAlarm (alarmName : String)
  | tagResource (alarmName : String)
deriving DecidableEq

/-- How a run terminates abnormally. `indexError` is the Python `IndexError`
raised by `[0]` on an empty alias list (line 210); `topicNotFound` is the
`ValueError` of line 49; `configError` is the `ValueError` of line 221;
`metricsError` is an exception out of `list_metrics` (line 131) that
propagates through `future.result()` (lines 243 and 261). -/
inductive RunError where
  | indexError
  | topicNotFound (topicName : String) (region : String)
  | configError
  | metricsError (msg : String)
deriving DecidableEq

/-- Responses the external AWS services would return during one run, plus
per-alarm failure switches for the submission calls. -/
structure Env where
  aliasResp : Option (List String)
  topicArns : List String
  pagesByTag : List (List Instance)
  pagesById : List (List Instance)
  listMetricsFor : String → Except String (List Metric)
  createFails : String → Bool
  tagFails : String → Bool

/-- The run configuration of `create_ec2_alarms` (line 202) plus the
module-level `alarm_prefix` global the helpers read. -/
structure RunConfig where
  region : String
  snsTopicName : String
  instanceIds : List String
  instanceTagName : String
  instanceTagValue : String
  alarmPfx : String

/-- Model of line 210: the AccountAliases key of the list-aliases response,
read with the one-element default list holding default-account, then
indexed at 0. A `none` response models a reply without the AccountAliases
key; indexing an empty list (the IndexError) is the `none` result. -/
def accountAliasOf (aliasResp : Option (List String)) : Option String :=
  (aliasResp.getD ["default-account"]).head?

/-- Model of `get_sns_topic_arn` (lines 39-52): first topic ARN containing
the topic name as a substring, else the `ValueError` of line 49. -/
def getSnsTopicArn (topicArns : List String) (topicName region : String) : Except RunError String :=
  match topicArns.find? (fun arn => strIn topicName arn) with
  | some arn => .ok arn
  | none => .error (.topicNotFound topicName region)

/-- The outcome recorded for one alarm definition by the submission phase:
whether `put_metric_alarm` succeeded and whether `tag_resource` succeeded. -/
structure SubmitOutcome where
  alarmName : String
  created : Bool
  tagged : Bool
deriving DecidableEq

/-- Model of `tag_alarm` (lines 54-63): one `tag_resource` call whose
failure is caught inside `tag_alarm` and only logged. -/
def tagAlarm (tagFails : String → Bool) (name : String) : List ApiCall × Bool :=
  ([ApiCall.tagResource name], !tagFails name)

/-- Model of `create_cloudwatch_alarm_batch` (lines 65-82): for each config,
attempt `put_metric_alarm`; on success, call `tag_alarm`; a create failure
is caught (line 81), skips tagging and moves to the next config. -/
def createCloudwatchAlarmBatch (createFails tagFails : String → Bool) :
    List AlarmConfig → List ApiCall × List SubmitOutcome
  | [] => ([], [])
  | cfg :: rest =>
    let name := cfg.alarmName
    let (thisTrace, thisOutcome) :=
      if createFails name then
        ([ApiCall.putMetricAlarm name], (⟨name, false, false⟩ : SubmitOutcome))
      else
        let (tagTrace, tagOk) := tagAlarm tagFails name
        (ApiCall.putMetricAlarm name :: tagTrace, (⟨name, true, tagOk⟩ : SubmitOutcome))
    let (restTrace, restOutcomes) := createCloudwatchAlarmBatch createFails tagFails rest
    (thisTrace ++ restTrace, thisOutcome :: restOutcomes)

/-- Model of the batching loop of lines 263-267: the slices
`all_alarm_configs[i:i+10]` for `i in range(0, len, 10)`. -/
def mkBatches (l : List AlarmConfig) : List (List AlarmConfig) :=
  (List.range' 0 ((l.length + 9) / 10) 10).map (fun i => (l.drop i).take 10)

/-- Sequential submission of the batches, concatenating traces and
outcomes (the `for` loop of lines 265-267). -/
def submitBatches (createFails tagFails : String → Bool) :
    List (List AlarmConfig) → List ApiCall × List SubmitOutcome
  | [] => ([], [])
  | b :: bs =>
    let (t, o) := createCloudwatchAlarmBatch createFails tagFails b
    let (t2, o2) := submitBatches createFails tagFails bs
    (t ++ t2, o ++ o2)

/-- Model of one page of the discovery loop (lines 230-243 and 248-261):
apply `process_instance` to each instance, consuming `future.result()` in
submission order; the first exception propagates uncaught. -/
def processPage (listMetricsFor : String → Except String (List Metric))
    (alarmPfx accountAlias snsTopicArn : String) :
    List Instance → List ApiCall × Except String (List AlarmConfig)
  | [] => ([], .ok [])
  | inst :: rest =>
    let callTrace := if platformOf inst == "linux" then [ApiCall.listMetrics inst.instanceId] else []
    match processInstance alarmPfx accountAlias snsTopicArn inst (listMetricsFor inst.instanceId) with
    | .error e => (callTrace, .error e)
    | .ok cfgs =>
      (callTrace ++ (processPage listMetricsFor alarmPfx accountAlias snsTopicArn rest).1,
       ((processPage listMetricsFor alarmPfx accountAlias snsTopicArn rest).2).map (cfgs ++ ·))

/-- All discovery pages in order, each preceded by its `describe_instances`
page fetch; results are flattened into the run-wide aggregate. -/
def processPages (listMetricsFor : String → Except String (List Metric))
    (alarmPfx accountAlias snsTopicArn : String) :
    List (List Instance) → List ApiCall × Except String (List AlarmConfig)
  | [] => ([], .ok [])
  | p :: ps =>
    match (processPage listMetricsFor alarmPfx accountAlias snsTopicArn p).2 with
    | .error e =>
      (ApiCall.describeInstances :: (processPage listMetricsFor alarmPfx accountAlias snsTopicArn p).1,
       .error e)
    | .ok cfgs =>
      (ApiCall.describeInstances ::
        ((processPage listMetricsFor alarmPfx accountAlias snsTopicArn p).1 ++
         (processPages listMetricsFor alarmPfx accountAlias snsTopicArn ps).1),
       ((processPages listMetricsFor alarmPfx accountAlias snsTopicArn ps).2).map (cfgs ++ ·))

/-- Which discovery mode line 224 selects: tag filtering when the
instance-id list is empty, otherwise id-based lookup. -/
def selectedPages (env : Env) (cfg : RunConfig) : List (List Instance) :=
  if cfg.instanceIds.isEmpty then env.pagesByTag else env.pagesById

/-- Shallow embedding of `create_ec2_alarms` (lines 202-267), returning the
trace of AWS calls and either a terminating error or the per-alarm
submission outcomes. The step order matches the source: account-alias
lookup (210), SNS topic resolution (213), selection-mode validation
(220-221), paged discovery plus `process_instance` fan-out (224-261),
then batched submission (263-267). -/
def createEc2Alarms (env : Env) (cfg : RunConfig) :
    List ApiCall × Except RunError (List SubmitOutcome) :=
  match accountAliasOf env.aliasResp with
  | none => ([ApiCall.listAccountAliases], .error .indexError)
  | some accountAlias =>
    match getSnsTopicArn env.topicArns cfg.snsTopicName cfg.region with
    | .error e => ([ApiCall.listAccountAliases, ApiCall.listTopics], .error e)
    | .ok snsTopicArn =>
      if cfg.instanceIds.isEmpty && (cfg.instanceTagName.isEmpty || cfg.instanceTagValue.isEmpty) then
        ([ApiCall.listAccountAliases, ApiCall.listTopics], .error .configError)
      else
        match (processPages env.listMetricsFor cfg.alarmPfx accountAlias snsTopicArn
            (selectedPages env cfg)).2 with
        | .error e =>
          (ApiCall.listAccountAliases :: ApiCall.listTopics ::
            (processPages env.listMetricsFor cfg.alarmPfx accountAlias snsTopicArn
              (selectedPages env cfg)).1,
           .error (.metricsError e))
        | .ok allAlarmConfigs =>
          (ApiCall.listAccountAliases :: ApiCall.listTopics ::
            ((processPages env.listMetricsFor cfg.alarmPfx accountAlias snsTopicArn
               (selectedPages env cfg)).1 ++
             (submitBatches env.createFails env.tagFails (mkBatches allAlarmConfigs)).1),
           .ok (submitBatches env.createFails env.tagFails (mkBatches allAlarmConfigs)).2)

/-!
Concrete fixtures used by the witness and counterexample theorems below.
-/

/-- A Linux instance (no Platform key, no Name tag). -/
def exInst1 : Instance := ⟨"i-1", "t3.micro", [], none, none⟩

/-- A second Linux instance, distinct id, also unnamed. -/
def exInst2 : Instance := ⟨"i-2", "t3.micro", [], none, none⟩

/-- A Windows instance named db1. -/
def exWin1 : Instance := ⟨"i-3", "m5.large", [⟨"Name", "db1"⟩], some "ami-3", some "Windows"⟩

/-- An instance with an unrecognized platform string. -/
def exUnk1 : Instance := ⟨"i-4", "t2.nano", [], none, some "Darwin"⟩

/-- A Linux instance named web1. -/
def exLx1 : Instance := ⟨"i-5", "t3.micro", [⟨"Name", "web1"⟩], none, some "Linux"⟩

/-- An environment where the metric catalog fails for instance i-1 only. -/
def exEnv1 : Env :=
  { aliasResp := some ["acme"]
    topicArns := ["arn:aws:sns:us-east-1:1:Infrastructure_Topic"]
    pagesByTag := [[exInst1, exInst2]]
    pagesById := []
    listMetricsFor := fun iid => if iid == "i-1" then .error "boom" else .ok []
    createFails := fun _ => false
    tagFails := fun _ => false }

/-- Same environment with a healthy metric catalog. -/
def exEnv2 : Env := { exEnv1 with listMetricsFor := fun _ => .ok [] }

/-- Same environment, but the identity resolver reports an empty
account-alias list (no alias configured). -/
def exEnv3 : Env := { exEnv1 with aliasResp := some [] }

/-- Same environment, but the alias response lacks the AccountAliases key. -/
def exEnv4 : Env := { exEnv1 with aliasResp := none }

/-- A valid tag-mode run configuration. -/
def exCfg1 : RunConfig := ⟨"us-east-1", "Infrastructure_Topic", [], "gl_env", "prod", "gl"⟩

/-- An invalid run configuration: no instance ids and an empty tag name. -/
def exCfg2 : RunConfig := ⟨"us-east-1", "Infrastructure_Topic", [], "", "prod", "gl"⟩

/-!
Claim theorems.
-/

/-- C4: for every instance descriptor with platform windows, the rule engine
returns exactly 4 alarm definitions in the order status-check, cpu-used,
mem-used, disk-used, for every metric-catalog outcome (the catalog is not
consulted), and the disk-used definition uses threshold 5 with comparison
LessThanOrEqualToThreshold while the other three use
GreaterThanOrEqualToThreshold. -/
theorem c4_windows_four_alarms (alarmPfx accountAlias snsTopicArn : String) (inst : Instance)
    (h : platformOf inst = "windows") :
    (∀ mr, processInstance alarmPfx accountAlias snsTopicArn inst mr =
      .ok [statusCheckAlarm alarmPfx accountAlias snsTopicArn inst,
           cpuUsedAlarm alarmPfx accountAlias snsTopicArn inst,
           windowsMemAlarm alarmPfx accountAlias snsTopicArn inst,
           windowsDiskAlarm alarmPfx accountAlias snsTopicArn inst]) ∧
    (statusCheckAlarm alarmPfx accountAlias snsTopicArn inst).alarmName
      = mkAlarmName alarmPfx accountAlias (instanceNameOf inst) "status-check" ∧
    (statusCheckAlarm alarmPfx accountAlias snsTopicArn inst).comparisonOperator
      = "GreaterThanOrEqualToThreshold" ∧
    (cpuUsedAlarm alarmPfx accountAlias snsTopicArn inst).alarmName
      = mkAlarmName alarmPfx accountAlias (instanceNameOf inst) "cpu-used" ∧
    (cpuUsedAlarm alarmPfx accountAlias snsTopicArn inst).comparisonOperator
      = "GreaterThanOrEqualToThreshold" ∧
    (windowsMemAlarm alarmPfx accountAlias snsTopicArn inst).alarmName
      = mkAlarmName alarmPfx accountAlias (instanceNameOf inst) "mem-used" ∧
    (windowsMemAlarm alarmPfx accountAlias snsTopicArn inst).comparisonOperator
      = "GreaterThanOrEqualToThreshold" ∧
    (windowsDiskAlarm alarmPfx accountAlias snsTopicArn inst).alarmName
      = mkAlarmName alarmPfx accountAlias (instanceNameOf inst) "disk-used" ∧
    (windowsDiskAlarm alarmPfx accountAlias snsTopicArn inst).threshold = 5 ∧
    (windowsDiskAlarm alarmPfx accountAlias snsTopicArn inst).comparisonOperator
      = "LessThanOrEqualToThreshold" := by
  refine ⟨fun mr => ?_, rfl, rfl, rfl, rfl, rfl, rfl, rfl, rfl, rfl⟩
  simp [processInstance, h]

/-- C4 witness: the Windows instance db1 yields the four alarms for any
catalog outcome, evaluated at a concrete descriptor. -/
theorem c4_witness :
    platformOf exWin1 = "windows" ∧
    processInstance "gl" "acme" "arn:sns" exWin1 (.ok []) =
      .ok [statusCheckAlarm "gl" "acme" "arn:sns" exWin1,
           cpuUsedAlarm "gl" "acme" "arn:sns" exWin1,
           windowsMemAlarm "gl" "acme" "arn:sns" exWin1,
           windowsDiskAlarm "gl" "acme" "arn:sns" exWin1] :=
  ⟨by decide, (c4_windows_four_alarms "gl" "acme" "arn:sns" exWin1 (by decide)).1 (.ok [])⟩

/-- C10: for every instance descriptor whose lowercased platform is neither
linux nor windows, the rule engine returns exactly the two baseline
definitions (status-check then cpu-used), with the same result for every
metric-catalog outcome (no catalog lookup), and no error. -/
theorem c10_unknown_platform_baseline (alarmPfx accountAlias snsTopicArn : String)
    (inst : Instance) (h1 : platformOf inst ≠ "linux") (h2 : platformOf inst ≠ "windows") :
    ∀ mr, processInstance alarmPfx accountAlias snsTopicArn inst mr =
      .ok [statusCheckAlarm alarmPfx accountAlias snsTopicArn inst,
           cpuUsedAlarm alarmPfx accountAlias snsTopicArn inst] := by
  intro mr
  have e1 : (platformOf inst == "linux") = false := beq_eq_false_iff_ne.mpr h1
  have e2 : (platformOf inst == "windows") = false := beq_eq_false_iff_ne.mpr h2
  simp [processInstance, e1, e2]

/-- C10 witness: a Darwin-platform instance yields only the two baseline
alarms, at a concrete descriptor and catalog outcome. -/
theorem c10_witness :
    platformOf exUnk1 = "darwin" ∧
    processInstance "gl" "acme" "arn:sns" exUnk1 (.error "unreachable") =
      .ok [statusCheckAlarm "gl" "acme" "arn:sns" exUnk1,
           cpuUsedAlarm "gl" "acme" "arn:sns" exUnk1] :=
  ⟨by decide, c10_unknown_platform_baseline "gl" "acme" "arn:sns" exUnk1
    (by decide) (by decide) (.error "unreachable")⟩

/-- C8: alarm naming is deterministic in (prefix, alias, display name,
suffix) only: two descriptors with the same display name get identical
alarm names from every builder, whatever their instance ids; consequently
two distinct unnamed instances produce colliding generated names. -/
theorem c8_alarm_name_collision :
    (∀ alarmPfx accountAlias snsTopicArn (i1 i2 : Instance),
      instanceNameOf i1 = instanceNameOf i2 →
      (statusCheckAlarm alarmPfx accountAlias snsTopicArn i1).alarmName
        = (statusCheckAlarm alarmPfx accountAlias snsTopicArn i2).alarmName ∧
      (cpuUsedAlarm alarmPfx accountAlias snsTopicArn i1).alarmName
        = (cpuUsedAlarm alarmPfx accountAlias snsTopicArn i2).alarmName ∧
      (windowsMemAlarm alarmPfx accountAlias snsTopicArn i1).alarmName
        = (windowsMemAlarm alarmPfx accountAlias snsTopicArn i2).alarmName ∧
      (windowsDiskAlarm alarmPfx accountAlias snsTopicArn i1).alarmName
        = (windowsDiskAlarm alarmPfx accountAlias snsTopicArn i2).alarmName) ∧
    (∃ i1 i2 : Instance, i1.instanceId ≠ i2.instanceId ∧
      ∃ l1 l2, processInstance "gl" "acme" "arn:sns" i1 (.ok []) = .ok l1 ∧
        processInstance "gl" "acme" "arn:sns" i2 (.ok []) = .ok l2 ∧
        ∃ c1 ∈ l1, ∃ c2 ∈ l2, c1.alarmName = c2.alarmName) := by
  constructor
  · intro alarmPfx accountAlias snsTopicArn i1 i2 h
    exact ⟨by simp [statusCheckAlarm, h], by simp [cpuUsedAlarm, h],
           by simp [windowsMemAlarm, h], by simp [windowsDiskAlarm, h]⟩
  · refine ⟨exInst1, exInst2, by decide,
      [statusCheckAlarm "gl" "acme" "arn:sns" exInst1, cpuUsedAlarm "gl" "acme" "arn:sns" exInst1],
      [statusCheckAlarm "gl" "acme" "arn:sns" exInst2, cpuUsedAlarm "gl" "acme" "arn:sns" exInst2],
      rfl, rfl, statusCheckAlarm "gl" "acme" "arn:sns" exInst1, by simp,
      statusCheckAlarm "gl" "acme" "arn:sns" exInst2, by simp, by decide⟩

/-- C8 witness: the determinism half applied to the two concrete unnamed
instances, which share the display name but not the instance id. -/
theorem c8_witness :
    (statusCheckAlarm "gl" "acme" "arn:sns" exInst1).alarmName
      = (statusCheckAlarm "gl" "acme" "arn:sns" exInst2).alarmName :=
  (c8_alarm_name_collision.1 "gl" "acme" "arn:sns" exInst1 exInst2 (by decide)).1

/-- Helper: the Linux branch of `process_instance` in closed form. -/
lemma processInstance_linux_eq (alarmPfx accountAlias snsTopicArn : String) (inst : Instance)
    (ms : List Metric) (hplat : platformOf inst = "linux") :
    processInstance alarmPfx accountAlias snsTopicArn inst (.ok ms) =
      .ok ([statusCheckAlarm alarmPfx accountAlias snsTopicArn inst,
            cpuUsedAlarm alarmPfx accountAlias snsTopicArn inst] ++
           linuxExtraAlarms alarmPfx accountAlias snsTopicArn inst ms) := by
  simp [processInstance, hplat]

/-- Helper: when no sample is named mem_used_percent and no
disk_used_percent sample carries a root path dimension, the Linux metric
loop emits nothing. -/
lemma linuxExtraAlarms_eq_nil (alarmPfx accountAlias snsTopicArn : String) (inst : Instance)
    (ms : List Metric)
    (hmem : ∀ m ∈ ms, m.metricName ≠ "mem_used_percent")
    (hdisk : ∀ m ∈ ms, m.metricName = "disk_used_percent" →
      ∀ d ∈ m.dimensions, ¬(d.name = "path" ∧ d.value = "/")) :
    linuxExtraAlarms alarmPfx accountAlias snsTopicArn inst ms = [] := by
  induction ms with
  | nil => rfl
  | cons m rest ih =>
    have h1 : (m.metricName == "mem_used_percent") = false :=
      beq_eq_false_iff_ne.mpr (hmem m (List.mem_cons_self m rest))
    have ih2 := ih (fun x hx => hmem x (List.mem_cons_of_mem m hx))
      (fun x hx => hdisk x (List.mem_cons_of_mem m hx))
    by_cases h2 : m.metricName = "disk_used_percent"
    · have h3 : m.dimensions.filter (fun d => d.name == "path" && d.value == "/") = [] := by
        rw [List.filter_eq_nil_iff]
        intro d hd
        simpa using hdisk m (List.mem_cons_self m rest) h2 d hd
      simp [linuxExtraAlarms, h1, h2, h3, ih2]
    · have h2b : (m.metricName == "disk_used_percent") = false := beq_eq_false_iff_ne.mpr h2
      simp [linuxExtraAlarms, h1, h2b, ih2]

/-- C6: for a Linux descriptor whose catalog reports no mem_used_percent
sample and no qualifying disk_used_percent sample, the rule engine returns
exactly the two baseline definitions, status-check then cpu-used, and the
absence is not an error (the result is an ok value). -/
theorem c6_linux_no_agent_metrics (alarmPfx accountAlias snsTopicArn : String) (inst : Instance)
    (ms : List Metric) (hplat : platformOf inst = "linux")
    (hmem : ∀ m ∈ ms, m.metricName ≠ "mem_used_percent")
    (hdisk : ∀ m ∈ ms, m.metricName = "disk_used_percent" →
      ∀ d ∈ m.dimensions, ¬(d.name = "path" ∧ d.value = "/")) :
    processInstance alarmPfx accountAlias snsTopicArn inst (.ok ms) =
      .ok [statusCheckAlarm alarmPfx accountAlias snsTopicArn inst,
           cpuUsedAlarm alarmPfx accountAlias snsTopicArn inst] := by
  rw [processInstance_linux_eq alarmPfx accountAlias snsTopicArn inst ms hplat,
    linuxExtraAlarms_eq_nil alarmPfx accountAlias snsTopicArn inst ms hmem hdisk]
  rfl

/-- A catalog answer with an unrelated metric and a disk sample mounted on
/data only. -/
def exMs6 : List Metric :=
  [⟨"cpu_usage_idle", [⟨"InstanceId", "i-1"⟩]⟩,
   ⟨"disk_used_percent", [⟨"path", "/data"⟩, ⟨"InstanceId", "i-1"⟩]⟩]

/-- C6 witness: the concrete Linux instance with the exMs6 catalog yields
exactly the two baseline alarms. -/
theorem c6_witness :
    processInstance "gl" "acme" "arn:sns" exInst1 (.ok exMs6) =
      .ok [statusCheckAlarm "gl" "acme" "arn:sns" exInst1,
           cpuUsedAlarm "gl" "acme" "arn:sns" exInst1] :=
  c6_linux_no_agent_metrics "gl" "acme" "arn:sns" exInst1 exMs6
    (by decide) (by decide) (by decide)

/-- Helper: Bool form of the disk-alarm emission condition: the metric loop
emits some disk_used_percent definition exactly when some catalog sample is
a disk_used_percent metric with a root path dimension. -/
lemma linuxExtraAlarms_disk_any (alarmPfx accountAlias snsTopicArn : String) (inst : Instance)
    (ms : List Metric) :
    (linuxExtraAlarms alarmPfx accountAlias snsTopicArn inst ms).any
      (fun c => c.metricName == "disk_used_percent") =
    ms.any (fun m => m.metricName == "disk_used_percent" &&
      m.dimensions.any (fun d => d.name == "path" && d.value == "/")) := by
  induction ms with
  | nil => rfl
  | cons m rest ih =>
    simp only [linuxExtraAlarms, List.any_append, List.any_cons, ih]
    by_cases h1 : m.metricName = "mem_used_percent"
    · simp [h1, linuxMemAlarm]
    · by_cases h2 : m.metricName = "disk_used_percent"
      · simp [h1, h2, linuxDiskAlarm]
        congr 1
        rw [Bool.eq_iff_iff]
        simp [List.any_eq_true, Decidable.not_forall]
      · have h1b : (m.metricName == "mem_used_percent") = false := beq_eq_false_iff_ne.mpr h1
        have h2b : (m.metricName == "disk_used_percent") = false := beq_eq_false_iff_ne.mpr h2
        simp [h1b, h2b]

/-- Helper: Prop form of `linuxExtraAlarms_disk_any`. -/
lemma linuxExtraAlarms_disk_iff (alarmPfx accountAlias snsTopicArn : String) (inst : Instance)
    (ms : List Metric) :
    (∃ c ∈ linuxExtraAlarms alarmPfx accountAlias snsTopicArn inst ms,
      c.metricName = "disk_used_percent") ↔
    (∃ m ∈ ms, m.metricName = "disk_used_percent" ∧
      ∃ d ∈ m.dimensions, d.name = "path" ∧ d.value = "/") := by
  have h : ((linuxExtraAlarms alarmPfx accountAlias snsTopicArn inst ms).any
      (fun c => c.metricName == "disk_used_percent") = true) ↔
      (ms.any (fun m => m.metricName == "disk_used_percent" &&
        m.dimensions.any (fun d => d.name == "path" && d.value == "/")) = true) := by
    rw [linuxExtraAlarms_disk_any]
  simpa only [List.any_eq_true, Bool.and_eq_true, beq_iff_eq, and_assoc] using h

/-- C5: for a Linux descriptor, a disk-used definition (metric
disk_used_percent) appears in the output if and only if the catalog holds
a disk_used_percent sample with a dimension named path valued /; samples
whose path dimension has any other value contribute nothing. -/
theorem c5_linux_disk_iff (alarmPfx accountAlias snsTopicArn : String) (inst : Instance)
    (ms : List Metric) (hplat : platformOf inst = "linux") :
    ∃ l, processInstance alarmPfx accountAlias snsTopicArn inst (.ok ms) = .ok l ∧
      ((∃ c ∈ l, c.metricName = "disk_used_percent") ↔
        (∃ m ∈ ms, m.metricName = "disk_used_percent" ∧
          ∃ d ∈ m.dimensions, d.name = "path" ∧ d.value = "/")) := by
  refine ⟨_, processInstance_linux_eq alarmPfx accountAlias snsTopicArn inst ms hplat, ?_⟩
  rw [← linuxExtraAlarms_disk_iff alarmPfx accountAlias snsTopicArn inst ms]
  simp [List.mem_append, statusCheckAlarm, cpuUsedAlarm, baseAlarm]

/-- A catalog answer holding only a disk sample mounted on /data. -/
def exMs5 : List Metric := [⟨"disk_used_percent", [⟨"path", "/data"⟩]⟩]

/-- C5 witness: with a /data-mounted disk sample only, the concrete Linux
instance gets no disk-used definition. -/
theorem c5_witness :
    ∃ l, processInstance "gl" "acme" "arn:sns" exInst1 (.ok exMs5) = .ok l ∧
      ¬(∃ c ∈ l, c.metricName = "disk_used_percent") := by
  obtain ⟨l, hl, hiff⟩ := c5_linux_disk_iff "gl" "acme" "arn:sns" exInst1 exMs5 (by decide)
  exact ⟨l, hl, fun hc => absurd (hiff.mp hc) (by decide)⟩

/-- Helper: slices starting at s are slices of the list with its first s
elements dropped. -/
lemma slices_shift : ∀ (k s : Nat) (l : List AlarmConfig),
    (List.range' s k 10).map (fun i => (l.drop i).take 10) =
    (List.range' 0 k 10).map (fun i => ((l.drop s).drop i).take 10) := by
  intro k
  induction k with
  | zero => intro s l; rfl
  | succ k ih =>
    intro s l
    rw [List.range'_succ, List.range'_succ, List.map_cons, List.map_cons,
      Nat.zero_add, ih (s + 10) l, ih 10 (l.drop s)]
    simp only [List.drop_zero, List.drop_drop, Nat.add_zero]

/-- Helper: the concatenation of the first k slices of width 10 is the
first 10k elements. -/
lemma flatten_slices_take : ∀ (k : Nat) (l : List AlarmConfig),
    ((List.range' 0 k 10).map (fun i => (l.drop i).take 10)).flatten = l.take (10 * k) := by
  intro k
  induction k with
  | zero => intro l; rfl
  | succ k ih =>
    intro l
    rw [List.range'_succ, Nat.zero_add, List.map_cons, List.flatten_cons,
      slices_shift k 10 l, ih (l.drop 10), List.drop_zero,
      show 10 * (k + 1) = 10 + 10 * k from by ring, List.take_add]

/-- Helper: the batches concatenate back to the original aggregate. -/
lemma mkBatches_flatten (l : List AlarmConfig) : (mkBatches l).flatten = l := by
  rw [mkBatches, flatten_slices_take]
  exact List.take_of_length_le (by omega)

/-- C9: the submitter partitions any aggregate list into ceil(N/10) batches
(in natural-number arithmetic, (N + 9) / 10); every batch has at most 10
definitions and every batch but possibly the last has exactly 10; and the
batches concatenate back, in order, to exactly the original list, so each
definition is submitted exactly once. -/
theorem c9_batch_partition (l : List AlarmConfig) :
    (mkBatches l).length = (l.length + 9) / 10 ∧
    (mkBatches l).flatten = l ∧
    (∀ b ∈ mkBatches l, b.length ≤ 10) ∧
    (∀ i (h1 : i < (mkBatches l).length), i + 1 < (mkBatches l).length →
      ((mkBatches l).get ⟨i, h1⟩).length = 10) := by
  refine ⟨by simp [mkBatches], mkBatches_flatten l, ?_, ?_⟩
  · intro b hb
    obtain ⟨i, _, rfl⟩ := List.mem_map.mp hb
    exact List.length_take_le 10 _
  · intro i h1 h2
    have hlen : (mkBatches l).length = (l.length + 9) / 10 := by simp [mkBatches]
    have hg : (mkBatches l).get ⟨i, h1⟩ = (l.drop (10 * i)).take 10 := by
      simp [mkBatches, List.get_eq_getElem, List.getElem_range']
    rw [hg]
    rw [hlen] at h2
    simp only [List.length_take, List.length_drop]
    omega

/-- Eleven copies of a concrete definition: two batches, sizes 10 and 1. -/
def exCfgList : List AlarmConfig := List.replicate 11 (baseAlarm "arn:sns")

/-- C9 witness: at a concrete 11-element aggregate there are 2 batches, the
first full batch has exactly 10 definitions, and the batches flatten back
to the aggregate. -/
theorem c9_witness :
    (mkBatches exCfgList).length = 2 ∧
    ((mkBatches exCfgList).get ⟨0, by decide⟩).length = 10 ∧
    (mkBatches exCfgList).flatten = exCfgList := by
  obtain ⟨ha, hb, hc, hd⟩ := c9_batch_partition exCfgList
  exact ⟨by rw [ha]; rfl, hd 0 (by decide) (by decide), hb⟩

/-- Helper: the submission outcomes of one batch are computed elementwise:
each definition is created exactly when its own create call succeeds and
tagged exactly when both its create and its tag call succeed. -/
lemma createCloudwatchAlarmBatch_outcomes (createFails tagFails : String → Bool)
    (cfgs : List AlarmConfig) :
    (createCloudwatchAlarmBatch createFails tagFails cfgs).2 =
      cfgs.map (fun c => (⟨c.alarmName, !createFails c.alarmName,
        !createFails c.alarmName && !tagFails c.alarmName⟩ : SubmitOutcome)) := by
  induction cfgs with
  | nil => rfl
  | cons c rest ih =>
    by_cases h : createFails c.alarmName <;>
      simp [createCloudwatchAlarmBatch, tagAlarm, h, ih]

/-- Helper: every definition of a batch gets a create attempt. -/
lemma createCloudwatchAlarmBatch_trace (createFails tagFails : String → Bool)
    (cfgs : List AlarmConfig) (c : AlarmConfig) (h : c ∈ cfgs) :
    ApiCall.putMetricAlarm c.alarmName ∈ (createCloudwatchAlarmBatch createFails tagFails cfgs).1 := by
  induction cfgs with
  | nil => cases h
  | cons x rest ih =>
    rcases List.mem_cons.mp h with rfl | hr
    · by_cases hc : createFails c.alarmName <;>
        simp [createCloudwatchAlarmBatch, hc, tagAlarm]
    · by_cases hc : createFails x.alarmName <;>
        simp [createCloudwatchAlarmBatch, hc, tagAlarm, ih hr]

/-- Helper: the submission outcomes across all batches are elementwise over
the concatenation of the batches. -/
lemma submitBatches_outcomes (createFails tagFails : String → Bool)
    (bs : List (List AlarmConfig)) :
    (submitBatches createFails tagFails bs).2 =
      bs.flatten.map (fun c => (⟨c.alarmName, !createFails c.alarmName,
        !createFails c.alarmName && !tagFails c.alarmName⟩ : SubmitOutcome)) := by
  induction bs with
  | nil => rfl
  | cons b bs ih =>
    simp [submitBatches, createCloudwatchAlarmBatch_outcomes, ih]

/-- Helper: every definition of every batch gets a create attempt. -/
lemma submitBatches_trace (createFails tagFails : String → Bool)
    (bs : List (List AlarmConfig)) (c : AlarmConfig) (h : c ∈ bs.flatten) :
    ApiCall.putMetricAlarm c.alarmName ∈ (submitBatches createFails tagFails bs).1 := by
  induction bs with
  | nil => cases h
  | cons b bs ih =>
    rw [List.flatten_cons] at h
    rcases List.mem_append.mp h with hb | hf
    · simp [submitBatches, List.mem_append,
        createCloudwatchAlarmBatch_trace createFails tagFails b c hb]
    · simp [submitBatches, List.mem_append, ih hf]

/-- C7: during submission of any aggregate list, every definition receives
its own create attempt (a create failure at index k does not prevent
attempts for later definitions in the same or later batches); the outcome
of each definition depends only on its own create and tag calls; a failed
create skips tagging; and a tag failure after a successful create leaves
the alarm created but untagged. -/
theorem c7_submission_isolation (createFails tagFails : String → Bool)
    (cfgs : List AlarmConfig) :
    (submitBatches createFails tagFails (mkBatches cfgs)).2 =
      cfgs.map (fun c => (⟨c.alarmName, !createFails c.alarmName,
        !createFails c.alarmName && !tagFails c.alarmName⟩ : SubmitOutcome)) ∧
    (∀ c ∈ cfgs, ApiCall.putMetricAlarm c.alarmName ∈
      (submitBatches createFails tagFails (mkBatches cfgs)).1) ∧
    (∀ k (hk : k < cfgs.length), createFails (cfgs.get ⟨k, hk⟩).alarmName = true →
      (submitBatches createFails tagFails (mkBatches cfgs)).2[k]? =
        some ⟨(cfgs.get ⟨k, hk⟩).alarmName, false, false⟩) ∧
    (∀ k (hk : k < cfgs.length), createFails (cfgs.get ⟨k, hk⟩).alarmName = false →
      tagFails (cfgs.get ⟨k, hk⟩).alarmName = true →
      (submitBatches createFails tagFails (mkBatches cfgs)).2[k]? =
        some ⟨(cfgs.get ⟨k, hk⟩).alarmName, true, false⟩) := by
  have houts : (submitBatches createFails tagFails (mkBatches cfgs)).2 =
      cfgs.map (fun c => (⟨c.alarmName, !createFails c.alarmName,
        !createFails c.alarmName && !tagFails c.alarmName⟩ : SubmitOutcome)) := by
    rw [submitBatches_outcomes, mkBatches_flatten]
  refine ⟨houts, ?_, ?_, ?_⟩
  · intro c hc
    exact submitBatches_trace createFails tagFails (mkBatches cfgs) c
      (by rw [mkBatches_flatten]; exact hc)
  · intro k hk h
    rw [List.get_eq_getElem] at h
    rw [houts, List.getElem?_map, List.getElem?_eq_getElem hk]
    simp [List.get_eq_getElem, h]
  · intro k hk h1 h2
    rw [List.get_eq_getElem] at h1 h2
    rw [houts, List.getElem?_map, List.getElem?_eq_getElem hk]
    simp [List.get_eq_getElem, h1, h2]

/-- Twelve definitions whose names are n0 .. n11, crossing a batch
boundary. -/
def exCfgList12 : List AlarmConfig :=
  (List.range 12).map (fun i => { baseAlarm "arn:sns" with alarmName := "n" ++ toString i })

/-- C7 witness: with the create call failing for n0 and the tag call
failing for n11, alarm n0 is neither created nor tagged, later alarms
(n1 in batch one, n11 in batch two) still get create attempts and are
created, and n11 stays created though untagged. -/
theorem c7_witness :
    (submitBatches (fun n => n == "n0") (fun n => n == "n11") (mkBatches exCfgList12)).2[0]? =
      some ⟨"n0", false, false⟩ ∧
    (submitBatches (fun n => n == "n0") (fun n => n == "n11") (mkBatches exCfgList12)).2[11]? =
      some ⟨"n11", true, false⟩ ∧
    ApiCall.putMetricAlarm "n11" ∈
      (submitBatches (fun n => n == "n0") (fun n => n == "n11") (mkBatches exCfgList12)).1 := by
  obtain ⟨h1, h2, h3, h4⟩ := c7_submission_isolation (fun n => n == "n0") (fun n => n == "n11") exCfgList12
  refine ⟨?_, ?_, ?_⟩
  · have := h3 0 (by decide) (by decide)
    simpa using this
  · have := h4 11 (by decide) (by decide) (by decide)
    simpa using this
  · have : ({ baseAlarm "arn:sns" with alarmName := "n11" } : AlarmConfig) ∈ exCfgList12 := by decide
    simpa using h2 _ this

/-- Helper: a linux instance whose metric-catalog call fails makes the
whole page fail (the exception is re-raised from future.result and caught
nowhere in `create_ec2_alarms`). -/
lemma processPage_error (lm : String → Except String (List Metric))
    (alarmPfx accountAlias snsTopicArn : String) (insts : List Instance) (inst : Instance)
    (h : inst ∈ insts) (hplat : platformOf inst = "linux") (msg : String)
    (hmet : lm inst.instanceId = .error msg) :
    ∃ e, (processPage lm alarmPfx accountAlias snsTopicArn insts).2 = .error e := by
  induction insts with
  | nil => cases h
  | cons x rest ih =>
    rcases List.mem_cons.mp h with rfl | hr
    · have hpe : processInstance alarmPfx accountAlias snsTopicArn inst (lm inst.instanceId) =
          .error msg := by
        rw [hmet]; simp [processInstance, hplat]
      exact ⟨msg, by simp [processPage, hpe]⟩
    · cases hres : processInstance alarmPfx accountAlias snsTopicArn x (lm x.instanceId) with
      | error e => exact ⟨e, by simp [processPage, hres]⟩
      | ok cfgs =>
        obtain ⟨e, he⟩ := ih hr
        exact ⟨e, by simp [processPage, hres, he, Except.map]⟩

/-- Helper: a failing instance on any page makes the whole run of pages
fail. -/
lemma processPages_error (lm : String → Except String (List Metric))
    (alarmPfx accountAlias snsTopicArn : String) (pages : List (List Instance))
    (page : List Instance) (inst : Instance) (hp : page ∈ pages) (hi : inst ∈ page)
    (hplat : platformOf inst = "linux") (msg : String)
    (hmet : lm inst.instanceId = .error msg) :
    ∃ e, (processPages lm alarmPfx accountAlias snsTopicArn pages).2 = .error e := by
  induction pages with
  | nil => cases hp
  | cons q qs ih =>
    rcases List.mem_cons.mp hp with rfl | hqr
    · obtain ⟨e, he⟩ := processPage_error lm alarmPfx accountAlias snsTopicArn page inst hi
        hplat msg hmet
      exact ⟨e, by simp [processPages, he]⟩
    · cases hq : (processPage lm alarmPfx accountAlias snsTopicArn q).2 with
      | error e => exact ⟨e, by simp [processPages, hq]⟩
      | ok cfgs =>
        obtain ⟨e, he⟩ := ih hqr
        exact ⟨e, by simp [processPages, hq, he, Except.map]⟩

/-- Helper: instance processing performs no alarm-creation calls; its trace
holds only metric-catalog lookups. -/
lemma processPage_trace_no_put (lm : String → Except String (List Metric))
    (alarmPfx accountAlias snsTopicArn : String) (insts : List Instance) (n : String) :
    ApiCall.putMetricAlarm n ∉ (processPage lm alarmPfx accountAlias snsTopicArn insts).1 := by
  induction insts with
  | nil => simp [processPage]
  | cons x rest ih =>
    cases hres : processInstance alarmPfx accountAlias snsTopicArn x (lm x.instanceId) with
    | error e =>
      by_cases hx : (platformOf x == "linux") = true <;> simp [processPage, hres, hx]
    | ok cfgs =>
      by_cases hx : (platformOf x == "linux") = true <;> simp [processPage, hres, hx, ih]

/-- Helper: the discovery and fan-out phase performs no alarm-creation
calls. -/
lemma processPages_trace_no_put (lm : String → Except String (List Metric))
    (alarmPfx accountAlias snsTopicArn : String) (pages : List (List Instance)) (n : String) :
    ApiCall.putMetricAlarm n ∉ (processPages lm alarmPfx accountAlias snsTopicArn pages).1 := by
  induction pages with
  | nil => simp [processPages]
  | cons q qs ih =>
    cases hq : (processPage lm alarmPfx accountAlias snsTopicArn q).2 with
    | error e =>
      simp [processPages, hq, processPage_trace_no_put]
    | ok cfgs =>
      simp [processPages, hq, processPage_trace_no_put, ih]

/-- C1 counterexample: in a run over two sibling Linux instances where the
metric catalog fails for the first, the whole run terminates with that
error after only four API calls: no sibling result is aggregated and no
alarm of any instance is ever submitted, contradicting the claimed
per-instance isolation. -/
theorem c1_counterexample :
    (createEc2Alarms exEnv1 exCfg1).2 = .error (.metricsError "boom") ∧
    (createEc2Alarms exEnv1 exCfg1).1 =
      [.listAccountAliases, .listTopics, .describeInstances, .listMetrics "i-1"] ∧
    exInst2 ∈ (selectedPages exEnv1 exCfg1).flatten ∧
    platformOf exInst2 = "linux" ∧
    (∀ n, ApiCall.putMetricAlarm n ∉ (createEc2Alarms exEnv1 exCfg1).1) := by
  refine ⟨rfl, by decide, by decide, by decide, ?_⟩
  intro n
  rw [show (createEc2Alarms exEnv1 exCfg1).1 =
    [.listAccountAliases, .listTopics, .describeInstances, .listMetrics "i-1"] from by decide]
  simp

/-- C1 amended: a failed metric-catalog call for one instance is not
isolated per instance: the exception propagates out of the fan-out and
terminates the whole run with a metrics error, before any alarm of any
instance (the failing one or its siblings) is submitted. -/
theorem c1_metric_failure_aborts_run (env : Env) (cfg : RunConfig) (accountAlias : String)
    (hal : accountAliasOf env.aliasResp = some accountAlias) (arn : String)
    (harn : getSnsTopicArn env.topicArns cfg.snsTopicName cfg.region = .ok arn)
    (hvalid : (cfg.instanceIds.isEmpty &&
      (cfg.instanceTagName.isEmpty || cfg.instanceTagValue.isEmpty)) = false)
    (page : List Instance) (inst : Instance) (msg : String)
    (hp : page ∈ selectedPages env cfg) (hi : inst ∈ page)
    (hplat : platformOf inst = "linux")
    (hmet : env.listMetricsFor inst.instanceId = .error msg) :
    (∃ e, (createEc2Alarms env cfg).2 = .error (.metricsError e)) ∧
    ∀ n, ApiCall.putMetricAlarm n ∉ (createEc2Alarms env cfg).1 := by
  obtain ⟨e, he⟩ := processPages_error env.listMetricsFor cfg.alarmPfx accountAlias arn
    (selectedPages env cfg) page inst hp hi hplat msg hmet
  constructor
  · exact ⟨e, by simp [createEc2Alarms, hal, harn, hvalid, he]⟩
  · intro n
    simp [createEc2Alarms, hal, harn, hvalid, he, processPages_trace_no_put]

/-- C1 witness: the amended statement applied to the concrete two-instance
environment with the failing catalog. -/
theorem c1_witness :
    (∃ e, (createEc2Alarms exEnv1 exCfg1).2 = .error (.metricsError e)) ∧
    ∀ n, ApiCall.putMetricAlarm n ∉ (createEc2Alarms exEnv1 exCfg1).1 :=
  c1_metric_failure_aborts_run exEnv1 exCfg1 "acme" rfl
    "arn:aws:sns:us-east-1:1:Infrastructure_Topic" rfl (by decide)
    [exInst1, exInst2] exInst1 "boom" (by decide) (by decide) (by decide) rfl

/-- C2 counterexample: with an empty instance-id list and an empty tag
name, the run does fail with the configuration error, but only after the
account-alias lookup and the notification-target resolution have already
been performed, contradicting the claimed no-external-call guarantee. -/
theorem c2_counterexample :
    (createEc2Alarms exEnv2 exCfg2).2 = .error .configError ∧
    ApiCall.listAccountAliases ∈ (createEc2Alarms exEnv2 exCfg2).1 ∧
    ApiCall.listTopics ∈ (createEc2Alarms exEnv2 exCfg2).1 :=
  ⟨rfl, by decide, by decide⟩

/-- C2 amended: an empty instance-id list with an incomplete tag pair makes
the run fail with a configuration error before any discovery or metric
call, but after exactly two external calls: the account-alias lookup and
the notification-target resolution. -/
theorem c2_validation_after_lookups (env : Env) (cfg : RunConfig) (accountAlias arn : String)
    (hids : cfg.instanceIds.isEmpty = true)
    (htag : cfg.instanceTagName.isEmpty = true ∨ cfg.instanceTagValue.isEmpty = true)
    (hal : accountAliasOf env.aliasResp = some accountAlias)
    (harn : getSnsTopicArn env.topicArns cfg.snsTopicName cfg.region = .ok arn) :
    createEc2Alarms env cfg = ([.listAccountAliases, .listTopics], .error .configError) := by
  rcases htag with h | h <;> simp [createEc2Alarms, hal, harn, hids, h]

/-- C2 witness: the amended statement applied to the concrete invalid
configuration. -/
theorem c2_witness :
    createEc2Alarms exEnv2 exCfg2 = ([.listAccountAliases, .listTopics], .error .configError) :=
  c2_validation_after_lookups exEnv2 exCfg2 "acme"
    "arn:aws:sns:us-east-1:1:Infrastructure_Topic" (by decide) (Or.inl (by decide)) rfl rfl

/-- C3 counterexample: when the identity resolver reports an empty alias
list (the shape AWS returns when no alias is configured), the run does not
fall back to default-account: it terminates with an index error. -/
theorem c3_counterexample :
    accountAliasOf (some ([] : List String)) = none ∧
    createEc2Alarms exEnv3 exCfg1 = ([ApiCall.listAccountAliases], .error .indexError) :=
  ⟨rfl, rfl⟩

/-- C3 amended: the default-account fallback applies only when the alias
response lacks the AccountAliases key entirely: such a run is identical to
one whose resolver returns exactly the alias default-account; an empty
alias list instead aborts the run with an index error. -/
theorem c3_default_only_for_missing_key (env : Env) (cfg : RunConfig)
    (h : env.aliasResp = none) :
    accountAliasOf env.aliasResp = some "default-account" ∧
    createEc2Alarms env cfg =
      createEc2Alarms { env with aliasResp := some ["default-account"] } cfg := by
  rcases env with ⟨ar, ta, pt, pi, lm, cf, tf⟩
  simp only at h
  subst h
  exact ⟨rfl, rfl⟩

/-- C3 witness: the amended statement applied to the concrete environment
whose alias response lacks the key. -/
theorem c3_witness :
    accountAliasOf exEnv4.aliasResp = some "default-account" ∧
    createEc2Alarms exEnv4 exCfg1 =
      createEc2Alarms { exEnv4 with aliasResp := some ["default-account"] } exCfg1 :=
  c3_default_only_for_missing_key exEnv4 exCfg1 rfl

end AutoEc2Alarms
